import Mathlib

/- Verification development for the invoice PDF generator of the AIly
repository (src/frontend/src/pages/Agent.jsx: createPDFDocument,
generatePDF, generatePDFBase64).

Modelling conventions:
- JavaScript numbers are modelled exactly as rationals plus a NaN element
  (JSNum); binary floating-point rounding is idealised away, which is the
  standard shallow-embedding idealisation and does not affect any of the
  structural properties considered here.
- A JavaScript field value is modelled as undefined, a string, or a number
  (JSVal); truthiness follows JavaScript (undefined, the empty string, 0 and
  NaN are falsy).
- The produced PDF is modelled as the list of drawing commands issued to the
  jsPDF document object, in issue order.  Library-determined quantities (the
  final vertical extent of a rendered table, line wrapping of long text,
  locale date formatting, the page height) are supplied by an explicit
  deterministic interface (RenderLib). -/

attribute [local semireducible] Rat.mul Rat.add Rat.sub Rat.inv Rat.ofScientific

namespace AIly

/-- Lowercasing of a string, character by character (the JavaScript
toLowerCase call; every description considered here is ASCII). -/
def lowerStr (s : String) : String := String.mk (s.data.map Char.toLower)

/-- Uppercasing of a string, character by character (the JavaScript
toUpperCase call). -/
def upperStr (s : String) : String := String.mk (s.data.map Char.toUpper)

/-- A JavaScript number: NaN or an exact rational. -/
inductive JSNum where
  | nan : JSNum
  | num : ℚ → JSNum
deriving DecidableEq

/-- JavaScript addition: NaN propagates. -/
def JSNum.add : JSNum → JSNum → JSNum
  | JSNum.num a, JSNum.num b => JSNum.num (a + b)
  | _, _ => JSNum.nan

/-- JavaScript subtraction: NaN propagates. -/
def JSNum.sub : JSNum → JSNum → JSNum
  | JSNum.num a, JSNum.num b => JSNum.num (a - b)
  | _, _ => JSNum.nan

/-- JavaScript multiplication: NaN propagates. -/
def JSNum.mul : JSNum → JSNum → JSNum
  | JSNum.num a, JSNum.num b => JSNum.num (a * b)
  | _, _ => JSNum.nan

/-- The JavaScript comparison x greater than 0 (false on NaN). -/
def JSNum.gt0 : JSNum → Bool
  | JSNum.num a => decide (0 < a)
  | JSNum.nan => false

/-- The JavaScript strict inequality on numbers: NaN is strictly
unequal to everything, including itself. -/
def JSNum.strictNe : JSNum → JSNum → Bool
  | JSNum.num a, JSNum.num b => decide (a ≠ b)
  | _, _ => true

/-- A JavaScript field value: undefined, a string, or a number. -/
inductive JSVal where
  | undef : JSVal
  | str : String → JSVal
  | num : JSNum → JSVal
deriving DecidableEq

/-- JavaScript truthiness: undefined, the empty string, 0 and NaN are falsy. -/
def JSVal.truthy : JSVal → Bool
  | JSVal.undef => false
  | JSVal.str s => decide (s ≠ "")
  | JSVal.num JSNum.nan => false
  | JSVal.num (JSNum.num q) => decide (q ≠ 0)

/-- The JavaScript expression v or-else d (the logical-or defaulting idiom). -/
def jsOr (v d : JSVal) : JSVal := if v.truthy then v else d

/-- Decimal digit test on a character. -/
def isDigitChar (c : Char) : Bool := 48 ≤ c.toNat && c.toNat ≤ 57

/-- Numeric value of a decimal digit character. -/
def digitVal (c : Char) : ℕ := c.toNat - 48

/-- Read a maximal run of decimal digits: returns the accumulated value, the
number of digits read, and the rest of the input. -/
def readDigits : List Char → ℕ → ℕ → ℕ × ℕ × List Char
  | c :: rest, acc, cnt =>
    if isDigitChar c then readDigits rest (10 * acc + digitVal c) (cnt + 1)
    else (acc, cnt, c :: rest)
  | [], acc, cnt => (acc, cnt, [])

/-- Read an optional leading sign, returning the sign and the rest. -/
def readSign : List Char → ℤ × List Char
  | '-' :: rest => (-1, rest)
  | '+' :: rest => (1, rest)
  | s => (1, s)

/-- Whitespace test used by parseFloat for leading whitespace. -/
def isSpaceChar (c : Char) : Bool :=
  c = ' ' || c = '\t' || c = '\n' || c = '\r'

/-- Drop leading whitespace. -/
def skipSpaces : List Char → List Char
  | c :: rest => if isSpaceChar c then skipSpaces rest else c :: rest
  | [] => []

/-- Model of the JavaScript parseFloat builtin on the character list of a
string: after leading whitespace, the longest prefix of the form
sign digits [. digits] [e sign digits] is converted; if no digit occurs in
the mantissa the result is NaN.  The Infinity literal is not modelled. -/
def parseFloatChars (s : List Char) : JSNum :=
  let s1 := skipSpaces s
  let p1 := readSign s1
  let ip := readDigits p1.2 0 0
  let fp :=
    match ip.2.2 with
    | '.' :: rest => readDigits rest 0 0
    | other => (0, 0, other)
  if ip.2.1 + fp.2.1 = 0 then JSNum.nan
  else
    let mant : ℚ := (p1.1 : ℚ) * ((ip.1 : ℚ) + (fp.1 : ℚ) / (10 : ℚ) ^ fp.2.1)
    let expo : ℤ :=
      match fp.2.2 with
      | c :: rest =>
        if c = 'e' || c = 'E' then
          let es := readSign rest
          let ed := readDigits es.2 0 0
          if ed.2.1 = 0 then 0 else es.1 * (ed.1 : ℤ)
        else 0
      | [] => 0
    if 0 ≤ expo then JSNum.num (mant * (10 : ℚ) ^ expo.toNat)
    else JSNum.num (mant / (10 : ℚ) ^ (-expo).toNat)

/-- Model of JavaScript Number toString: NaN prints as NaN, integers print
exactly; non-integer rationals are rendered via the rational printer (the
generator never branches on these strings, so their exact shape is
immaterial to every property below). -/
def JSNum.toStr : JSNum → String
  | JSNum.nan => "NaN"
  | JSNum.num q => if q.den = 1 then toString q.num else toString q

/-- String interpolation of a field value, as JavaScript template literals
and the jsPDF text call perform it. -/
def JSVal.interp : JSVal → String
  | JSVal.undef => "undefined"
  | JSVal.str s => s
  | JSVal.num n => n.toStr

/-- Floor of a rational as an integer, computed by flooring division. -/
def qFloor (q : ℚ) : ℤ := Int.fdiv q.num (q.den : ℤ)

/-- Model of the JavaScript toFixed(2) call: two decimal places, rounding
half away from the floor direction. -/
def toFixed2 : JSNum → String
  | JSNum.nan => "NaN"
  | JSNum.num q =>
    let n : ℤ := qFloor (q * 100 + 1 / 2)
    let sgn := if n < 0 then "-" else ""
    let a := n.natAbs
    let fp := a % 100
    let fpStr := if fp < 10 then "0" ++ toString fp else toString fp
    sgn ++ toString (a / 100) ++ "." ++ fpStr

/-- Decide whether the second character list occurs at the start of the
first. -/
def startsWithSeq : List Char → List Char → Bool
  | _, [] => true
  | [], _ :: _ => false
  | a :: as, b :: bs => a = b && startsWithSeq as bs

/-- Decide whether the second character list occurs contiguously anywhere in
the first (the JavaScript String includes test). -/
def containsSeq : List Char → List Char → Bool
  | [], pat => pat.isEmpty
  | a :: rest, pat => startsWithSeq (a :: rest) pat || containsSeq rest pat

/-- The JavaScript s.includes(pat) substring test. -/
def strIncludes (s pat : String) : Bool := containsSeq s.data pat.data

/-- One invoice line item.  The amount field is present on input records but
is never read by the generator. -/
structure LineItem where
  description : JSVal
  quantity : JSVal
  rate : JSVal
  amount : JSVal
deriving DecidableEq

/-- The business profile fields read by the generator. -/
structure BusinessInfo where
  businessName : JSVal
  businessAddress : JSVal
  businessPhone : JSVal
  businessEmail : JSVal
deriving DecidableEq

/-- The client profile fields read by the generator. -/
structure ClientInfo where
  name : JSVal
  email : JSVal
  address : JSVal
deriving DecidableEq

/-- The invoice record fields read by the generator. -/
structure Invoice where
  invoiceNumber : JSVal
  issueDate : JSVal
  dueDate : JSVal
  status : JSVal
  invoiceTitle : JSVal
  invoiceDescription : JSVal
  total : JSVal
  lineItems : Option (List LineItem)
deriving DecidableEq

/-- The first argument of the generator: it may carry a nested invoice
record, an embedded business profile and an embedded client profile, and is
otherwise itself treated as the invoice record (field self holds the
invoice-shaped fields carried directly on the object). -/
structure InvoiceData where
  invoice : Option Invoice
  user : Option BusinessInfo
  client : Option ClientInfo
  self : Invoice
deriving DecidableEq

/-- A business profile with every field absent (the empty-object fallback). -/
def emptyBusiness : BusinessInfo :=
  { businessName := JSVal.undef, businessAddress := JSVal.undef,
    businessPhone := JSVal.undef, businessEmail := JSVal.undef }

/-- A client profile with every field absent (the empty-object fallback). -/
def emptyClient : ClientInfo :=
  { name := JSVal.undef, email := JSVal.undef, address := JSVal.undef }

/-- Agent.jsx line 134: the invoice record is invoiceData.invoice when that
field is present, else invoiceData itself. -/
def resolveInvoice (d : InvoiceData) : Invoice := d.invoice.getD d.self

/-- Agent.jsx line 135: businessInfo is invoiceData.user, else the user
argument, else the empty object. -/
def resolveBusiness (d : InvoiceData) (u : Option BusinessInfo) : BusinessInfo :=
  d.user.getD (u.getD emptyBusiness)

/-- Agent.jsx line 136: clientInfo is invoiceData.client, else the client
argument, else the empty object. -/
def resolveClient (d : InvoiceData) (c : Option ClientInfo) : ClientInfo :=
  d.client.getD (c.getD emptyClient)

/-- Agent.jsx lines 267-268 and 323-324: the numeric coercion
parseFloat(v or-else 0) applied to a quantity, rate or total field. -/
def toNumber (v : JSVal) : JSNum :=
  match jsOr v (JSVal.num (JSNum.num 0)) with
  | JSVal.str s => parseFloatChars s.data
  | JSVal.num n => n
  | JSVal.undef => JSNum.nan

/-- Agent.jsx lines 246-247: a line item is a service when its description,
lowercased, contains labor, hour, service or time. -/
def isService (item : LineItem) : Bool :=
  let desc := lowerStr ((jsOr item.description (JSVal.str "")).interp)
  strIncludes desc "labor" || strIncludes desc "hour" ||
    strIncludes desc "service" || strIncludes desc "time"

/-- Agent.jsx line 243: the line items actually iterated (absent or empty
lineItems contributes nothing). -/
def lineItemsOf (inv : Invoice) : List LineItem :=
  match inv.lineItems with
  | some l => if l.length > 0 then l else []
  | none => []

/-- Agent.jsx lines 244-252: stable partition of the items into the services
and materials buckets by pushing each item onto one of two arrays. -/
def classifyItems : List LineItem → List LineItem × List LineItem
  | [] => ([], [])
  | item :: rest =>
    let p := classifyItems rest
    if isService item then (item :: p.1, p.2) else (p.1, item :: p.2)

/-- The services bucket of an invoice. -/
def servicesOf (inv : Invoice) : List LineItem :=
  (classifyItems (lineItemsOf inv)).1

/-- The materials bucket of an invoice. -/
def materialsOf (inv : Invoice) : List LineItem :=
  (classifyItems (lineItemsOf inv)).2

/-- Agent.jsx lines 267-269 and 323-325: the recomputed amount of one item. -/
def itemAmount (item : LineItem) : JSNum :=
  (toNumber item.quantity).mul (toNumber item.rate)

/-- Agent.jsx lines 255-256, 270 and 326: a bucket subtotal accumulated from
0 by JavaScript addition of the recomputed item amounts. -/
def sumAmounts (items : List LineItem) : JSNum :=
  items.foldl (fun acc it => acc.add (itemAmount it)) (JSNum.num 0)

/-- Agent.jsx line 371: grand subtotal. -/
def subtotalOf (inv : Invoice) : JSNum :=
  (sumAmounts (servicesOf inv)).add (sumAmounts (materialsOf inv))

/-- Agent.jsx line 373: the coerced authoritative invoice total. -/
def invoiceTotalOf (inv : Invoice) : JSNum := toNumber inv.total

/-- Agent.jsx line 374: tax is total minus subtotal when the coerced total
is strictly positive and strictly unequal to the subtotal, else ten percent
of the subtotal. -/
def taxOf (inv : Invoice) : JSNum :=
  let sub := subtotalOf inv
  let t := invoiceTotalOf inv
  if t.gt0 && t.strictNe sub then t.sub sub else sub.mul (JSNum.num (1 / 10))

/-- Agent.jsx line 375: the final total is the coerced invoice total when
strictly positive, else subtotal plus tax. -/
def totalOf (inv : Invoice) : JSNum :=
  let sub := subtotalOf inv
  let t := invoiceTotalOf inv
  if t.gt0 then t else sub.add (taxOf inv)

/-- One drawing command issued to the jsPDF document object. -/
inductive Cmd where
  | text : String → ℚ → ℚ → Option String → Cmd
  | setFont : String → String → Cmd
  | setFontSize : ℚ → Cmd
  | setTextColor : ℕ → ℕ → ℕ → Cmd
  | setDrawColor : ℕ → ℕ → ℕ → Cmd
  | setLineWidth : ℚ → Cmd
  | line : ℚ → ℚ → ℚ → ℚ → Cmd
  | table : ℚ → List String → List (List String) → Cmd
deriving DecidableEq

/-- The library-determined quantities the generator queries: the final
vertical extent of a rendered table (doc.lastAutoTable.finalY as a function
of the start position and the body rows), line wrapping of long text
(doc.splitTextToSize), locale date formatting, and the page height.  These
are effects of jsPDF and jspdf-autotable, external to the repository, and
are treated as a deterministic collaborator. -/
structure RenderLib where
  tableFinalY : ℚ → List (List String) → ℚ
  splitText : String → ℚ → List String
  formatDate : String → String
  pageHeight : ℚ

/-- A conditionally printed one-line text that advances the cursor by 5. -/
def optLine (v : JSVal) (x y : ℚ) : List Cmd × ℚ :=
  if v.truthy then ([Cmd.text v.interp x y none], y + 5) else ([], y)

/-- Agent.jsx lines 139-160: the header block; returns the commands and the
cursor position after the conditional business address, phone, email
lines. -/
def headerCmds (b : BusinessInfo) : List Cmd × ℚ :=
  let c0 : List Cmd :=
    [Cmd.setFontSize 24, Cmd.setTextColor 51 51 51,
     Cmd.setFont "helvetica" "bold",
     Cmd.text ((jsOr b.businessName (JSVal.str "Invoice")).interp) 20 25 none,
     Cmd.setFontSize 10, Cmd.setFont "helvetica" "normal",
     Cmd.setTextColor 102 102 102]
  let p1 := optLine b.businessAddress 20 32
  let p2 := optLine b.businessPhone 20 p1.2
  let p3 := optLine b.businessEmail 20 p2.2
  (c0 ++ p1.1 ++ p2.1 ++ p3.1, p3.2)

/-- Agent.jsx lines 163-182: the right-hand invoice metadata block at fixed
positions. -/
def invoiceMetaCmds (lib : RenderLib) (inv : Invoice) : List Cmd :=
  [Cmd.setFontSize 10, Cmd.setTextColor 51 51 51,
   Cmd.setFont "helvetica" "bold", Cmd.text "INVOICE" 150 25 none,
   Cmd.setFont "helvetica" "normal", Cmd.setFontSize 9,
   Cmd.text ("Invoice #: " ++ (jsOr inv.invoiceNumber (JSVal.str "N/A")).interp) 150 32 none]
  ++ (if inv.issueDate.truthy then
        [Cmd.text ("Issue Date: " ++ lib.formatDate inv.issueDate.interp) 150 37 none]
      else [])
  ++ (if inv.dueDate.truthy then
        [Cmd.text ("Due Date: " ++ lib.formatDate inv.dueDate.interp) 150 42 none]
      else [])
  ++ [Cmd.setTextColor 102 126 234, Cmd.setFont "helvetica" "bold",
      Cmd.text ("Status: " ++ upperStr ((jsOr inv.status (JSVal.str "draft")).interp)) 150 47 none]

/-- Agent.jsx lines 184-208: the bill-to block; the cursor resumes at the
maximum of the header cursor plus 10 and 55. -/
def billToCmds (ci : ClientInfo) (yIn : ℚ) : List Cmd × ℚ :=
  let y0 := max (yIn + 10) 55
  let c0 : List Cmd :=
    [Cmd.setFontSize 10, Cmd.setTextColor 51 51 51,
     Cmd.setFont "helvetica" "bold", Cmd.text "BILL TO:" 20 y0 none,
     Cmd.setFont "helvetica" "normal", Cmd.setFontSize 11]
  let p1 := optLine ci.name 20 (y0 + 6)
  let p2 :=
    if ci.email.truthy then
      ([Cmd.setFontSize 9, Cmd.setTextColor 102 102 102,
        Cmd.text ci.email.interp 20 p1.2 none], p1.2 + 5)
    else ([], p1.2)
  let p3 := optLine ci.address 20 p2.2
  (c0 ++ p1.1 ++ p2.1 ++ p3.1, p3.2)

/-- The wrapped description lines, each printed 5 units below the previous. -/
def descLineCmds : List String → ℚ → List Cmd
  | [], _ => []
  | l :: rest, y => Cmd.text l 20 y none :: descLineCmds rest (y + 5)

/-- Agent.jsx lines 211-235: the optional job title and wrapped description
block, skipped entirely (including its leading gap) when both are absent. -/
def jobCmds (lib : RenderLib) (inv : Invoice) (yIn : ℚ) : List Cmd × ℚ :=
  if inv.invoiceTitle.truthy || inv.invoiceDescription.truthy then
    let y := yIn + 5
    let c0 : List Cmd :=
      [Cmd.setFontSize 9, Cmd.setTextColor 102 102 102,
       Cmd.setFont "helvetica" "bold"]
    let p1 :=
      if inv.invoiceTitle.truthy then
        ([Cmd.text "Job/Project:" 20 y none, Cmd.setFontSize 10,
          Cmd.setTextColor 51 51 51, Cmd.setFont "helvetica" "normal",
          Cmd.text inv.invoiceTitle.interp 20 (y + 5) none], y + 10)
      else ([], y)
    let p2 :=
      if inv.invoiceDescription.truthy then
        let ls := lib.splitText inv.invoiceDescription.interp 150
        (Cmd.setFontSize 9 :: Cmd.setTextColor 102 102 102 ::
           descLineCmds ls p1.2, p1.2 + 5 * ls.length)
      else ([], p1.2)
    (c0 ++ p1.1 ++ p2.1, p2.2)
  else ([], yIn)

/-- Agent.jsx lines 266-276 and 322-332: one table body row built from an
item: description, quantity as a string, rate and recomputed amount with two
decimals. -/
def itemRow (item : LineItem) : List String :=
  let quantity := toNumber item.quantity
  let rate := toNumber item.rate
  [(jsOr item.description (JSVal.str "")).interp,
   quantity.toStr,
   "$" ++ toFixed2 rate,
   "$" ++ toFixed2 (quantity.mul rate)]

/-- Agent.jsx lines 259-312 and 315-368: one bucket section (title, table,
right-aligned subtotal line), rendered only when the bucket is non-empty;
the cursor after the table is the library-reported final extent plus 10,
and the section ends 12 below its subtotal line. -/
def sectionCmds (lib : RenderLib) (title rateHeader subLabel : String)
    (items : List LineItem) (yIn : ℚ) : List Cmd × ℚ :=
  if items.length > 0 then
    let c0 : List Cmd :=
      [Cmd.setFontSize 12, Cmd.setTextColor 102 126 234,
       Cmd.setFont "helvetica" "bold", Cmd.text title 20 yIn none]
    let rows := items.map itemRow
    let cT : List Cmd :=
      [Cmd.table (yIn + 2) ["Description", "Quantity", rateHeader, "Amount"] rows]
    let y := lib.tableFinalY (yIn + 2) rows + 10
    let cS : List Cmd :=
      [Cmd.setFontSize 10, Cmd.setTextColor 51 51 51,
       Cmd.setFont "helvetica" "bold", Cmd.text subLabel 135 y none,
       Cmd.text ("$" ++ toFixed2 (sumAmounts items)) 175 y (some "right")]
    (c0 ++ cT ++ cS, y + 12)
  else ([], yIn)

/-- Agent.jsx lines 377-404: the totals block: divider, subtotal line, tax
line only when the computed tax is strictly greater than 0, and the bold
final total line. -/
def totalsCmds (sub tax tot : JSNum) (yIn : ℚ) : List Cmd × ℚ :=
  let y1 := yIn + 15
  let c0 : List Cmd := [Cmd.setDrawColor 200 200 200, Cmd.line 120 y1 190 y1]
  let y2 := y1 + 10
  let c1 : List Cmd :=
    [Cmd.setFontSize 10, Cmd.setTextColor 51 51 51,
     Cmd.setFont "helvetica" "normal", Cmd.text "Subtotal:" 135 y2 none,
     Cmd.text ("$" ++ toFixed2 sub) 175 y2 (some "right")]
  let p2 :=
    if tax.gt0 then
      ([Cmd.text "Tax:" 135 (y2 + 8) none,
        Cmd.text ("$" ++ toFixed2 tax) 175 (y2 + 8) (some "right")], y2 + 8)
    else ([], y2)
  let y3 := p2.2 + 10
  let c3 : List Cmd :=
    [Cmd.setDrawColor 102 126 234, Cmd.setLineWidth (1 / 2),
     Cmd.line 120 (y3 - 2) 190 (y3 - 2),
     Cmd.setFontSize 14, Cmd.setFont "helvetica" "bold",
     Cmd.setTextColor 102 126 234, Cmd.text "TOTAL:" 135 (y3 + 3) none,
     Cmd.text ("$" ++ toFixed2 tot) 175 (y3 + 3) (some "right")]
  (c0 ++ c1 ++ p2.1 ++ c3, y3)

/-- Agent.jsx lines 406-416: the footer: a thank-you line always, a
generated-by line only when the business name is present. -/
def footerCmds (lib : RenderLib) (b : BusinessInfo) : List Cmd :=
  [Cmd.setFontSize 9, Cmd.setTextColor 102 102 102,
   Cmd.setFont "helvetica" "italic",
   Cmd.text "Thank you for your business!" 105 (lib.pageHeight - 20) (some "center")]
  ++ (if b.businessName.truthy then
        [Cmd.setFont "helvetica" "normal",
         Cmd.text ("Generated by " ++ b.businessName.interp) 105 (lib.pageHeight - 15) (some "center")]
      else [])

/-- The totals block of an invoice as it appears in the document, starting
at cursor position y. -/
def totalsBlock (inv : Invoice) (y : ℚ) : List Cmd :=
  (totalsCmds (subtotalOf inv) (taxOf inv) (totalOf inv) y).1

/-- Agent.jsx lines 138-368: everything the build issues before the totals
block (header, invoice metadata, bill-to, job, the two bucket sections),
together with the cursor position at which the totals block starts. -/
def docBody (lib : RenderLib) (invoice : Invoice) (businessInfo : BusinessInfo)
    (clientInfo : ClientInfo) : List Cmd × ℚ :=
  let hdr := headerCmds businessInfo
  let bill := billToCmds clientInfo hdr.2
  let job := jobCmds lib invoice bill.2
  let svc := sectionCmds lib "SERVICES" "Rate" "Services Subtotal:"
      (servicesOf invoice) (job.2 + 10)
  let mat := sectionCmds lib "MATERIALS" "Price" "Materials Subtotal:"
      (materialsOf invoice) svc.2
  (hdr.1 ++ invoiceMetaCmds lib invoice ++ bill.1 ++ job.1 ++ svc.1 ++ mat.1,
   mat.2)

/-- Agent.jsx lines 126-419: the internal build routine createPDFDocument,
as the list of drawing commands it issues in order. -/
def createPDFDocument (lib : RenderLib) (invoiceData : InvoiceData)
    (user : Option BusinessInfo) (client : Option ClientInfo) : List Cmd :=
  let invoice := resolveInvoice invoiceData
  let businessInfo := resolveBusiness invoiceData user
  let body := docBody lib invoice businessInfo (resolveClient invoiceData client)
  body.1 ++ totalsBlock invoice body.2 ++ footerCmds lib businessInfo

/-- Agent.jsx lines 422-427: the file-saving entry point: builds the
document and saves it under a name derived from the unwrapped invoice
number; modelled as the pair of the document and the filename. -/
def generatePDF (lib : RenderLib) (invoiceData : InvoiceData)
    (user : Option BusinessInfo) (client : Option ClientInfo) :
    List Cmd × String :=
  let doc := createPDFDocument lib invoiceData user client
  let invoice := resolveInvoice invoiceData
  (doc, "Invoice-" ++ (jsOr invoice.invoiceNumber (JSVal.str "Draft")).interp ++ ".pdf")

/-- The second comma-separated chunk of a string (the JavaScript
split at commas, index 1), as used on the data-URI string. -/
def splitCommaSecond (s : String) : String :=
  let rest := (s.data.dropWhile (fun c => !(c = ','))).drop 1
  String.mk (rest.takeWhile (fun c => !(c = ',')))

/-- Agent.jsx lines 430-435: the base64-string entry point: builds the
document the same way and returns the data-URI output with its prefix (up
to the first comma) stripped; the serialisation of the document to a
data-URI string is a jsPDF effect, supplied as the output parameter. -/
def generatePDFBase64 (lib : RenderLib) (output : List Cmd → String)
    (invoiceData : InvoiceData) (user : Option BusinessInfo)
    (client : Option ClientInfo) : String :=
  let doc := createPDFDocument lib invoiceData user client
  splitCommaSecond (output doc)

/-- Test for the tax line text. -/
def isTaxText : Cmd → Bool
  | Cmd.text s _ _ _ => s = "Tax:"
  | _ => false

/-- Whether a command list contains the tax line text. -/
def hasTaxLine (cmds : List Cmd) : Bool := cmds.any isTaxText

/-- Test for a table command. -/
def isTableCmd : Cmd → Bool
  | Cmd.table _ _ _ => true
  | _ => false

/-- Whether a command list contains a rendered table. -/
def hasTable (cmds : List Cmd) : Bool := cmds.any isTableCmd

/-- A concrete instantiation of the library interface, used to evaluate the
generator on concrete inputs: tables occupy 10 units plus 12 per row, text
wraps to a single line, dates format as themselves, A4 page height. -/
def libModel : RenderLib :=
  { tableFinalY := fun y rows => y + 10 + 12 * rows.length,
    splitText := fun s _ => [s],
    formatDate := fun s => s,
    pageHeight := 297 }

/-- The executable prefix test agrees with the mathematical statement that
the pattern starts the list. -/
lemma startsWithSeq_iff (s p : List Char) :
    startsWithSeq s p = true ↔ ∃ t, s = p ++ t := by
  induction p generalizing s with
  | nil => simp [startsWithSeq]
  | cons b bs ih =>
    cases s with
    | nil => simp [startsWithSeq]
    | cons a as =>
      simp only [startsWithSeq, Bool.and_eq_true, decide_eq_true_eq, ih]
      constructor
      · rintro ⟨hab, t, ht⟩
        exact ⟨t, by simp [hab, ht]⟩
      · rintro ⟨t, ht⟩
        simp only [List.cons_append, List.cons.injEq] at ht
        exact ⟨ht.1, t, ht.2⟩

/-- The executable containment test agrees with the mathematical statement
that the pattern occurs contiguously in the list. -/
lemma containsSeq_iff (s p : List Char) :
    containsSeq s p = true ↔ ∃ a b, s = a ++ p ++ b := by
  induction s with
  | nil =>
    simp only [containsSeq, List.isEmpty_iff]
    constructor
    · intro h
      exact ⟨[], [], by simp [h]⟩
    · rintro ⟨a, b, h⟩
      rcases List.append_eq_nil.mp (List.append_eq_nil.mp h.symm).1 with ⟨-, h2⟩
      exact h2
  | cons c rest ih =>
    simp only [containsSeq, Bool.or_eq_true, startsWithSeq_iff, ih]
    constructor
    · rintro (⟨t, ht⟩ | ⟨a, b, h⟩)
      · exact ⟨[], t, by simp [ht]⟩
      · exact ⟨c :: a, b, by simp [h]⟩
    · rintro ⟨a, b, h⟩
      cases a with
      | nil =>
        left
        exact ⟨b, by simpa using h⟩
      | cons x xs =>
        right
        simp only [List.cons_append, List.cons.injEq] at h
        exact ⟨xs, b, h.2⟩

/-- The push-based classification loop is the stable partition by the
service test. -/
lemma classifyItems_eq (items : List LineItem) :
    classifyItems items =
      (items.filter (fun i => isService i),
       items.filter (fun i => !(isService i))) := by
  induction items with
  | nil => rfl
  | cons it rest ih =>
    simp only [classifyItems, ih, List.filter_cons]
    cases h : isService it <;> simp [h]

/-- The document always splits as a body, the totals block of the resolved
invoice at the cursor the body reports, and the footer. -/
lemma createPDF_split (lib : RenderLib) (d : InvoiceData)
    (u : Option BusinessInfo) (c : Option ClientInfo) :
    createPDFDocument lib d u c =
      (docBody lib (resolveInvoice d) (resolveBusiness d u) (resolveClient d c)).1
        ++ totalsBlock (resolveInvoice d)
            (docBody lib (resolveInvoice d) (resolveBusiness d u) (resolveClient d c)).2
        ++ footerCmds lib (resolveBusiness d u) := rfl

/-- A string starting with a dollar sign is not the tax label. -/
lemma dollar_ne_tax (t : String) : ("$" ++ t) ≠ "Tax:" := by
  intro h
  have hd := congrArg String.data h
  simp [String.data_append] at hd

/-- The totals block contains the tax label exactly when the computed tax is
strictly positive. -/
lemma hasTaxLine_totalsCmds (sub tax tot : JSNum) (y : ℚ) :
    hasTaxLine (totalsCmds sub tax tot y).1 = tax.gt0 := by
  cases h : tax.gt0 <;>
    simp [totalsCmds, hasTaxLine, h, List.any_append, isTaxText,
      dollar_ne_tax]

/-- The tax label occurs in the totals block of an invoice exactly when its
computed tax is strictly positive. -/
lemma hasTaxLine_totalsBlock (inv : Invoice) (y : ℚ) :
    hasTaxLine (totalsBlock inv y) = (taxOf inv).gt0 :=
  hasTaxLine_totalsCmds _ _ _ _

/-- Conditional single lines never contain a table. -/
lemma any_isTable_optLine (v : JSVal) (x y : ℚ) :
    (optLine v x y).1.any isTableCmd = false := by
  unfold optLine
  split <;> simp [isTableCmd]

/-- The header block never contains a table. -/
lemma hasTable_headerCmds (b : BusinessInfo) :
    hasTable (headerCmds b).1 = false := by
  simp [headerCmds, hasTable, List.any_append, any_isTable_optLine, isTableCmd]

/-- The invoice metadata block never contains a table. -/
lemma hasTable_invoiceMetaCmds (lib : RenderLib) (inv : Invoice) :
    hasTable (invoiceMetaCmds lib inv) = false := by
  simp only [invoiceMetaCmds, hasTable, List.any_append, Bool.or_eq_false_iff]
  refine ⟨⟨⟨by simp [isTableCmd], ?_⟩, ?_⟩, by simp [isTableCmd]⟩ <;>
    split <;> simp [isTableCmd]

/-- The bill-to block never contains a table. -/
lemma hasTable_billToCmds (ci : ClientInfo) (y : ℚ) :
    hasTable (billToCmds ci y).1 = false := by
  simp only [billToCmds, hasTable, List.any_append, Bool.or_eq_false_iff]
  refine ⟨⟨⟨by simp [isTableCmd], by simp [any_isTable_optLine]⟩, ?_⟩,
    by simp [any_isTable_optLine]⟩
  split <;> simp [isTableCmd]

/-- The wrapped description lines never contain a table. -/
lemma any_isTable_descLineCmds (ls : List String) (y : ℚ) :
    (descLineCmds ls y).any isTableCmd = false := by
  induction ls generalizing y with
  | nil => rfl
  | cons l rest ih => simp [descLineCmds, isTableCmd, ih]

/-- The job block never contains a table. -/
lemma hasTable_jobCmds (lib : RenderLib) (inv : Invoice) (y : ℚ) :
    hasTable (jobCmds lib inv y).1 = false := by
  unfold jobCmds
  split
  · simp only [hasTable, List.any_append, Bool.or_eq_false_iff]
    refine ⟨⟨by simp [isTableCmd], ?_⟩, ?_⟩
    · split <;> simp [isTableCmd]
    · split <;> simp [isTableCmd, any_isTable_descLineCmds]
  · rfl

/-- The totals block never contains a table. -/
lemma hasTable_totalsCmds (sub tax tot : JSNum) (y : ℚ) :
    hasTable (totalsCmds sub tax tot y).1 = false := by
  simp only [totalsCmds, hasTable, List.any_append, Bool.or_eq_false_iff]
  refine ⟨⟨⟨by simp [isTableCmd], by simp [isTableCmd]⟩, ?_⟩,
    by simp [isTableCmd]⟩
  split <;> simp [isTableCmd]

/-- The footer never contains a table. -/
lemma hasTable_footerCmds (lib : RenderLib) (b : BusinessInfo) :
    hasTable (footerCmds lib b) = false := by
  simp only [footerCmds, hasTable, List.any_append, Bool.or_eq_false_iff]
  exact ⟨by simp [isTableCmd], by split <;> simp [isTableCmd]⟩

/-- A bucket section is empty when its bucket is empty. -/
lemma sectionCmds_nil (lib : RenderLib) (t r s : String) (y : ℚ) :
    sectionCmds lib t r s [] y = ([], y) := rfl

/-- Replacing the amount field of an item (the generator never reads it). -/
def amountMapItem (f : LineItem → JSVal) (it : LineItem) : LineItem :=
  { it with amount := f it }

/-- Replacing the amount fields of all items of an invoice. -/
def invMapAmount (f : LineItem → JSVal) (inv : Invoice) : Invoice :=
  { inv with lineItems := inv.lineItems.map (fun l => l.map (amountMapItem f)) }

/-- Replacing the amount fields of all items of the first argument,
wherever the record may live. -/
def dataMapAmount (f : LineItem → JSVal) (d : InvoiceData) : InvoiceData :=
  { d with invoice := d.invoice.map (invMapAmount f),
           self := invMapAmount f d.self }

lemma isService_amountMapItem (f : LineItem → JSVal) (it : LineItem) :
    isService (amountMapItem f it) = isService it := rfl

lemma itemAmount_amountMapItem (f : LineItem → JSVal) (it : LineItem) :
    itemAmount (amountMapItem f it) = itemAmount it := rfl

lemma itemRow_amountMapItem (f : LineItem → JSVal) (it : LineItem) :
    itemRow (amountMapItem f it) = itemRow it := rfl

lemma classifyItems_map (f : LineItem → JSVal) (l : List LineItem) :
    classifyItems (l.map (amountMapItem f)) =
      ((classifyItems l).1.map (amountMapItem f),
       (classifyItems l).2.map (amountMapItem f)) := by
  induction l with
  | nil => rfl
  | cons it rest ih =>
    cases h : isService it <;>
      simp [classifyItems, ih, h, isService_amountMapItem]

lemma sumAmounts_map (f : LineItem → JSVal) (l : List LineItem) :
    sumAmounts (l.map (amountMapItem f)) = sumAmounts l := by
  simp [sumAmounts, List.foldl_map, itemAmount_amountMapItem]

lemma lineItemsOf_invMapAmount (f : LineItem → JSVal) (inv : Invoice) :
    lineItemsOf (invMapAmount f inv) =
      (lineItemsOf inv).map (amountMapItem f) := by
  cases hL : inv.lineItems with
  | none => simp [lineItemsOf, invMapAmount, hL]
  | some l =>
    by_cases h : 0 < l.length <;>
      simp [lineItemsOf, invMapAmount, hL, h]

lemma servicesOf_invMapAmount (f : LineItem → JSVal) (inv : Invoice) :
    servicesOf (invMapAmount f inv) = (servicesOf inv).map (amountMapItem f) := by
  simp [servicesOf, lineItemsOf_invMapAmount, classifyItems_map]

lemma materialsOf_invMapAmount (f : LineItem → JSVal) (inv : Invoice) :
    materialsOf (invMapAmount f inv) = (materialsOf inv).map (amountMapItem f) := by
  simp [materialsOf, lineItemsOf_invMapAmount, classifyItems_map]

lemma subtotalOf_invMapAmount (f : LineItem → JSVal) (inv : Invoice) :
    subtotalOf (invMapAmount f inv) = subtotalOf inv := by
  simp [subtotalOf, servicesOf_invMapAmount, materialsOf_invMapAmount,
    sumAmounts_map]

lemma total_invMapAmount (f : LineItem → JSVal) (inv : Invoice) :
    (invMapAmount f inv).total = inv.total := rfl

lemma taxOf_invMapAmount (f : LineItem → JSVal) (inv : Invoice) :
    taxOf (invMapAmount f inv) = taxOf inv := by
  simp [taxOf, invoiceTotalOf, subtotalOf_invMapAmount, total_invMapAmount]

lemma totalOf_invMapAmount (f : LineItem → JSVal) (inv : Invoice) :
    totalOf (invMapAmount f inv) = totalOf inv := by
  simp [totalOf, invoiceTotalOf, subtotalOf_invMapAmount, taxOf_invMapAmount,
    total_invMapAmount]

lemma sectionCmds_map (lib : RenderLib) (t r s : String)
    (f : LineItem → JSVal) (l : List LineItem) (y : ℚ) :
    sectionCmds lib t r s (l.map (amountMapItem f)) y =
      sectionCmds lib t r s l y := by
  simp [sectionCmds, sumAmounts_map, List.map_map, Function.comp_def,
    itemRow_amountMapItem]

lemma totalsBlock_invMapAmount (f : LineItem → JSVal) (inv : Invoice) (y : ℚ) :
    totalsBlock (invMapAmount f inv) y = totalsBlock inv y := by
  simp [totalsBlock, subtotalOf_invMapAmount, taxOf_invMapAmount,
    totalOf_invMapAmount]

lemma docBody_invMapAmount (lib : RenderLib) (f : LineItem → JSVal)
    (inv : Invoice) (b : BusinessInfo) (ci : ClientInfo) :
    docBody lib (invMapAmount f inv) b ci = docBody lib inv b ci := by
  simp only [docBody, servicesOf_invMapAmount, materialsOf_invMapAmount,
    sectionCmds_map]
  rfl

lemma resolveInvoice_dataMapAmount (f : LineItem → JSVal) (d : InvoiceData) :
    resolveInvoice (dataMapAmount f d) = invMapAmount f (resolveInvoice d) := by
  unfold resolveInvoice dataMapAmount
  cases d.invoice <;> rfl

/-- The whole document is unchanged when every input amount field is
replaced: the generator never reads input amounts. -/
lemma createPDF_dataMapAmount (lib : RenderLib) (f : LineItem → JSVal)
    (d : InvoiceData) (u : Option BusinessInfo) (c : Option ClientInfo) :
    createPDFDocument lib (dataMapAmount f d) u c =
      createPDFDocument lib d u c := by
  rw [createPDF_split, createPDF_split, resolveInvoice_dataMapAmount]
  have hb : resolveBusiness (dataMapAmount f d) u = resolveBusiness d u := rfl
  have hc : resolveClient (dataMapAmount f d) c = resolveClient d c := rfl
  rw [hb, hc, docBody_invMapAmount, totalsBlock_invMapAmount]

/-- The accumulated bucket subtotal is the fold of the recomputed amounts. -/
lemma sumAmounts_eq_foldl (l : List LineItem) :
    sumAmounts l = (l.map itemAmount).foldl JSNum.add (JSNum.num 0) := by
  simp [sumAmounts, List.foldl_map]

lemma JSNum.nan_mul (x : JSNum) : JSNum.nan.mul x = JSNum.nan := by
  cases x <;> rfl

lemma JSNum.mul_nan (x : JSNum) : x.mul JSNum.nan = JSNum.nan := by
  cases x <;> rfl

lemma hasTable_append (a b : List Cmd) :
    hasTable (a ++ b) = (hasTable a || hasTable b) := List.any_append

lemma hasTaxLine_append (a b : List Cmd) :
    hasTaxLine (a ++ b) = (hasTaxLine a || hasTaxLine b) := List.any_append

lemma hasTable_nil : hasTable ([] : List Cmd) = false := rfl

lemma hasTable_totalsBlock (inv : Invoice) (y : ℚ) :
    hasTable (totalsBlock inv y) = false := hasTable_totalsCmds _ _ _ _

/-- When both buckets are empty the body contains no table. -/
lemma hasTable_docBody_of_empty (lib : RenderLib) (inv : Invoice)
    (b : BusinessInfo) (ci : ClientInfo)
    (hs : servicesOf inv = []) (hm : materialsOf inv = []) :
    hasTable (docBody lib inv b ci).1 = false := by
  simp only [docBody]
  rw [hs, hm]
  simp [sectionCmds_nil, hasTable_append, hasTable_headerCmds,
    hasTable_invoiceMetaCmds, hasTable_billToCmds, hasTable_jobCmds,
    hasTable_nil]

/-- The header always prints a title text at the fixed top position. -/
lemma headerText_mem (b : BusinessInfo) :
    Cmd.text ((jsOr b.businessName (JSVal.str "Invoice")).interp) 20 25 none
      ∈ (headerCmds b).1 := by
  simp [headerCmds]

/-- The footer always prints the thank-you line. -/
lemma footerThanks_mem (lib : RenderLib) (b : BusinessInfo) :
    Cmd.text "Thank you for your business!" 105 (lib.pageHeight - 20)
      (some "center") ∈ footerCmds lib b := by
  simp [footerCmds]

/-- The totals block always prints the final total text, right aligned, 3
units below the cursor position the block reports. -/
lemma totalText_mem_totalsCmds (sub tax tot : JSNum) (y : ℚ) :
    Cmd.text ("$" ++ toFixed2 tot) 175 ((totalsCmds sub tax tot y).2 + 3)
      (some "right") ∈ (totalsCmds sub tax tot y).1 := by
  cases h : tax.gt0 <;> simp [totalsCmds, h]

/-- An invoice record with every field absent except a given total and
given line items. -/
def mkInvoice (total : JSVal) (items : Option (List LineItem)) : Invoice :=
  { invoiceNumber := JSVal.undef, issueDate := JSVal.undef,
    dueDate := JSVal.undef, status := JSVal.undef,
    invoiceTitle := JSVal.undef, invoiceDescription := JSVal.undef,
    total := total, lineItems := items }

/-- A first argument carrying a nested invoice and no embedded profiles. -/
def mkData (inv : Invoice) : InvoiceData :=
  { invoice := some inv, user := none, client := none, self := inv }

/-- A material line item: quantity 10 at rate 10, amount 100. -/
def matItem : LineItem :=
  { description := JSVal.str "wood", quantity := JSVal.num (JSNum.num 10),
    rate := JSVal.num (JSNum.num 10), amount := JSVal.undef }

/-- A service line item from the specification scenario. -/
def svcItem : LineItem :=
  { description := JSVal.str "2 hours labor", quantity := JSVal.num (JSNum.num 2),
    rate := JSVal.num (JSNum.num 50), amount := JSVal.undef }

/-- A line item whose quantity is a malformed numeric string. -/
def badItem : LineItem :=
  { description := JSVal.str "widget", quantity := JSVal.str "abc",
    rate := JSVal.str "2", amount := JSVal.undef }

/-- A record with a present, nonzero, negative authoritative total and
computed subtotal 100. -/
def invNeg : Invoice := mkInvoice (JSVal.num (JSNum.num (-50))) (some [matItem])

/-- A record with authoritative total 95 and computed subtotal 100. -/
def inv95 : Invoice := mkInvoice (JSVal.num (JSNum.num 95)) (some [matItem])

/-- A record with authoritative total 100 equal to its computed subtotal. -/
def inv100 : Invoice := mkInvoice (JSVal.num (JSNum.num 100)) (some [matItem])

/-- A record with authoritative total 120 and computed subtotal 100. -/
def inv120 : Invoice := mkInvoice (JSVal.num (JSNum.num 120)) (some [matItem])

/-- A record with no line items and no authoritative total. -/
def invEmpty : Invoice := mkInvoice JSVal.undef (some [])

/-- C1, counterexample: a record with a present, nonzero authoritative total
of -50 and computed subtotal 100 is in the case the claim assigns tax equal
to total minus subtotal, yet the computed tax is 10 (ten percent of the
subtotal), not -150. -/
theorem tax_claim_counterexample :
    invoiceTotalOf invNeg = JSNum.num (-50) ∧ (-50 : ℚ) ≠ 0 ∧
    subtotalOf invNeg = JSNum.num 100 ∧ (-50 : ℚ) ≠ (100 : ℚ) ∧
    taxOf invNeg = JSNum.num 10 ∧
    taxOf invNeg ≠ (invoiceTotalOf invNeg).sub (subtotalOf invNeg) := by
  decide

/-- C1, amended: with T the parseFloat coercion of record.total (absent or
falsy giving 0): when T is strictly positive and differs from the subtotal,
tax is T minus subtotal; when T is not strictly positive, or equals the
subtotal, tax is ten percent of the subtotal. -/
theorem tax_resolution (inv : Invoice) :
    (∀ tq sq : ℚ, invoiceTotalOf inv = JSNum.num tq →
        subtotalOf inv = JSNum.num sq → 0 < tq → tq ≠ sq →
        taxOf inv = JSNum.num (tq - sq)) ∧
    ((invoiceTotalOf inv).gt0 = false →
        taxOf inv = (subtotalOf inv).mul (JSNum.num (1 / 10))) ∧
    (∀ q : ℚ, invoiceTotalOf inv = JSNum.num q → subtotalOf inv = JSNum.num q →
        taxOf inv = (subtotalOf inv).mul (JSNum.num (1 / 10))) := by
  refine ⟨?_, ?_, ?_⟩
  · intro tq sq ht hs hpos hne
    simp [taxOf, ht, hs, JSNum.gt0, JSNum.strictNe, JSNum.sub, hpos, hne]
  · intro h
    simp [taxOf, h]
  · intro q ht hs
    simp [taxOf, ht, hs, JSNum.strictNe]

/-- C1 witness: on a record with authoritative total 120 and subtotal 100,
the amended rule yields tax 20. -/
theorem tax_resolution_witness : taxOf inv120 = JSNum.num 20 := by
  have h := (tax_resolution inv120).1 120 100 (by decide) (by decide)
    (by decide) (by decide)
  norm_num at h
  exact h

/-- C2, counterexample: with a present, nonzero authoritative total of -50
the claim requires a printed final total of -50, yet the computed final
total is 110 (subtotal plus tax). -/
theorem final_total_claim_counterexample :
    invoiceTotalOf invNeg = JSNum.num (-50) ∧ (-50 : ℚ) ≠ 0 ∧
    totalOf invNeg = JSNum.num 110 ∧
    totalOf invNeg ≠ invoiceTotalOf invNeg := by
  decide

/-- C2, amended: the printed final total equals the coerced record total
whenever it is strictly positive, and subtotal plus computed tax otherwise;
the totals block prints exactly this value on its TOTAL line. -/
theorem final_total_resolution (inv : Invoice) :
    (∀ tq : ℚ, invoiceTotalOf inv = JSNum.num tq → 0 < tq →
        totalOf inv = JSNum.num tq) ∧
    ((invoiceTotalOf inv).gt0 = false →
        totalOf inv = (subtotalOf inv).add (taxOf inv)) ∧
    (∀ y : ℚ, Cmd.text ("$" ++ toFixed2 (totalOf inv)) 175
        ((totalsCmds (subtotalOf inv) (taxOf inv) (totalOf inv) y).2 + 3)
        (some "right") ∈ totalsBlock inv y) := by
  refine ⟨?_, ?_, ?_⟩
  · intro tq ht hpos
    simp [totalOf, ht, JSNum.gt0, hpos]
  · intro h
    simp [totalOf, h]
  · intro y
    exact totalText_mem_totalsCmds _ _ _ _

/-- C2 witness: on a record with authoritative total 120 the printed final
total is 120. -/
theorem final_total_resolution_witness : totalOf inv120 = JSNum.num 120 :=
  (final_total_resolution inv120).1 120 (by decide) (by decide)

/-- C3: both entry points invoke the same internal build routine on the same
arguments, so the document saved by the first is exactly the document the
second encodes, and any byte serialisation of the two agrees. -/
theorem entry_points_build_identical :
    ∀ (lib : RenderLib) (output : List Cmd → String) (d : InvoiceData)
      (u : Option BusinessInfo) (c : Option ClientInfo),
      (generatePDF lib d u c).1 = createPDFDocument lib d u c ∧
      generatePDFBase64 lib output d u c =
        splitCommaSecond (output (generatePDF lib d u c).1) ∧
      (∀ serialize : List Cmd → List ℕ,
          serialize (generatePDF lib d u c).1 =
            serialize (createPDFDocument lib d u c)) :=
  fun _ _ _ _ _ => ⟨rfl, rfl, fun _ => rfl⟩

/-- C4: the classification is the stable partition of the items by the
keyword test, every item lands in exactly one bucket, and the test holds
exactly when the lowercased description contains one of the four keywords
as a contiguous substring. -/
theorem classification_partition :
    ∀ items : List LineItem,
      (classifyItems items).1 = items.filter (fun i => isService i) ∧
      (classifyItems items).2 = items.filter (fun i => !(isService i)) ∧
      (∀ i, i ∈ items →
        (i ∈ (classifyItems items).1 ∧ i ∉ (classifyItems items).2) ∨
        (i ∈ (classifyItems items).2 ∧ i ∉ (classifyItems items).1)) ∧
      (∀ i : LineItem, isService i = true ↔
        ((∃ a b, (lowerStr ((jsOr i.description (JSVal.str "")).interp)).data
            = a ++ "labor".data ++ b) ∨
         (∃ a b, (lowerStr ((jsOr i.description (JSVal.str "")).interp)).data
            = a ++ "hour".data ++ b) ∨
         (∃ a b, (lowerStr ((jsOr i.description (JSVal.str "")).interp)).data
            = a ++ "service".data ++ b) ∨
         (∃ a b, (lowerStr ((jsOr i.description (JSVal.str "")).interp)).data
            = a ++ "time".data ++ b))) := by
  intro items
  have hcl := classifyItems_eq items
  refine ⟨by rw [hcl], by rw [hcl], ?_, ?_⟩
  · intro i hi
    by_cases h : isService i = true
    · left
      simp [hcl, List.mem_filter, h, hi]
    · right
      simp only [Bool.not_eq_true] at h
      simp [hcl, List.mem_filter, h, hi]
  · intro i
    simp only [isService, Bool.or_eq_true, strIncludes, containsSeq_iff,
      or_assoc]

/-- C4 witness: the specification scenario item lands in the services bucket
and not in the materials bucket. -/
theorem classification_partition_witness :
    (svcItem ∈ (classifyItems [svcItem]).1 ∧ svcItem ∉ (classifyItems [svcItem]).2) ∨
    (svcItem ∈ (classifyItems [svcItem]).2 ∧ svcItem ∉ (classifyItems [svcItem]).1) :=
  (classification_partition [svcItem]).2.2.1 svcItem (by decide)

/-- C5, counterexample: a quantity holding the malformed numeric string abc
is coerced to NaN, not 0, and the resulting amount is NaN. -/
theorem malformed_numeric_counterexample :
    parseFloatChars "abc".data = JSNum.nan ∧
    badItem.quantity = JSVal.str "abc" ∧
    toNumber badItem.quantity ≠ JSNum.num 0 ∧
    toNumber badItem.quantity = JSNum.nan ∧
    itemAmount badItem = JSNum.nan := by
  decide

/-- C5, amended: a non-empty quantity or rate string with no parseable
numeric prefix is coerced to NaN and makes the amount NaN; absent or falsy
values are coerced to 0; the build never fails (a document is always
produced). -/
theorem malformed_numeric_resolution :
    (∀ (it : LineItem) (s : String), it.quantity = JSVal.str s → s ≠ "" →
        parseFloatChars s.data = JSNum.nan →
        toNumber it.quantity = JSNum.nan ∧ itemAmount it = JSNum.nan) ∧
    (∀ (it : LineItem) (s : String), it.rate = JSVal.str s → s ≠ "" →
        parseFloatChars s.data = JSNum.nan →
        toNumber it.rate = JSNum.nan ∧ itemAmount it = JSNum.nan) ∧
    (∀ v : JSVal, v.truthy = false → toNumber v = JSNum.num 0) ∧
    (∀ (lib : RenderLib) (d : InvoiceData) (u : Option BusinessInfo)
        (c : Option ClientInfo), createPDFDocument lib d u c ≠ []) := by
  refine ⟨?_, ?_, ?_, ?_⟩
  · intro it s hq hne hparse
    have h : toNumber it.quantity = JSNum.nan := by
      simp [toNumber, jsOr, JSVal.truthy, hq, hne, hparse]
    exact ⟨h, by simp [itemAmount, h, JSNum.nan_mul]⟩
  · intro it s hr hne hparse
    have h : toNumber it.rate = JSNum.nan := by
      simp [toNumber, jsOr, JSVal.truthy, hr, hne, hparse]
    exact ⟨h, by simp [itemAmount, h, JSNum.mul_nan]⟩
  · intro v hv
    simp [toNumber, jsOr, hv]
  · intro lib d u c h
    rw [createPDF_split] at h
    rcases List.append_eq_nil.mp h with ⟨-, hf⟩
    simp [footerCmds] at hf

/-- C5 witness: the amended rule on the concrete malformed item. -/
theorem malformed_numeric_resolution_witness :
    toNumber badItem.quantity = JSNum.nan ∧ itemAmount badItem = JSNum.nan :=
  malformed_numeric_resolution.1 badItem "abc" (by decide) (by decide)
    (by decide)

/-- C6: every amount is recomputed as quantity times rate; replacing all
input amount fields leaves the whole document unchanged; each bucket
subtotal is the fold of its recomputed amounts from 0 (so 0 on an empty
bucket); the grand subtotal is the services subtotal plus the materials
subtotal. -/
theorem amounts_recomputed :
    (∀ it : LineItem,
        itemAmount it = (toNumber it.quantity).mul (toNumber it.rate)) ∧
    (∀ (lib : RenderLib) (f : LineItem → JSVal) (d : InvoiceData)
        (u : Option BusinessInfo) (c : Option ClientInfo),
        createPDFDocument lib (dataMapAmount f d) u c =
          createPDFDocument lib d u c) ∧
    (∀ l : List LineItem,
        sumAmounts l = (l.map itemAmount).foldl JSNum.add (JSNum.num 0)) ∧
    (sumAmounts [] = JSNum.num 0) ∧
    (∀ inv : Invoice, subtotalOf inv =
        (sumAmounts (servicesOf inv)).add (sumAmounts (materialsOf inv))) :=
  ⟨fun _ => rfl,
   fun lib f d u c => createPDF_dataMapAmount lib f d u c,
   sumAmounts_eq_foldl, rfl, fun _ => rfl⟩

/-- C7: the totals block renders the tax line exactly when the computed tax
is strictly greater than 0; the document always decomposes into body,
totals block, footer; and in the scenario with authoritative total 95 and
subtotal 100 the tax is -5, the tax line is omitted, and the printed total
is 95. -/
theorem tax_line_rendering :
    (∀ (sub tax tot : JSNum) (y : ℚ),
        hasTaxLine (totalsCmds sub tax tot y).1 = tax.gt0) ∧
    (∀ (lib : RenderLib) (d : InvoiceData) (u : Option BusinessInfo)
        (c : Option ClientInfo),
        createPDFDocument lib d u c =
          (docBody lib (resolveInvoice d) (resolveBusiness d u)
              (resolveClient d c)).1
            ++ totalsBlock (resolveInvoice d)
                (docBody lib (resolveInvoice d) (resolveBusiness d u)
                  (resolveClient d c)).2
            ++ footerCmds lib (resolveBusiness d u)) ∧
    subtotalOf inv95 = JSNum.num 100 ∧
    taxOf inv95 = JSNum.num (-5) ∧
    (∀ y : ℚ, hasTaxLine (totalsBlock inv95 y) = false) ∧
    totalOf inv95 = JSNum.num 95 ∧
    (∀ y : ℚ, Cmd.text "$95.00" 175
        ((totalsCmds (subtotalOf inv95) (taxOf inv95) (totalOf inv95) y).2 + 3)
        (some "right") ∈ totalsBlock inv95 y) := by
  refine ⟨hasTaxLine_totalsCmds, createPDF_split, by decide, by decide,
    ?_, by decide, ?_⟩
  · intro y
    rw [hasTaxLine_totalsBlock]
    decide
  · intro y
    have h := totalText_mem_totalsCmds (subtotalOf inv95) (taxOf inv95)
      (totalOf inv95) y
    have e : ("$" ++ toFixed2 (totalOf inv95)) = "$95.00" := by decide
    rw [e] at h
    exact h

/-- C8: with no (or empty) line items and no authoritative total, no table
is rendered, subtotal, tax and total are all 0, the tax line is omitted,
0 formats as 0.00, and the document still renders a header title and the
footer text. -/
theorem empty_invoice_degrades (lib : RenderLib) (d : InvoiceData)
    (u : Option BusinessInfo) (c : Option ClientInfo)
    (h1 : (resolveInvoice d).lineItems = none ∨
          (resolveInvoice d).lineItems = some [])
    (h2 : (resolveInvoice d).total = JSVal.undef) :
    hasTable (createPDFDocument lib d u c) = false ∧
    subtotalOf (resolveInvoice d) = JSNum.num 0 ∧
    taxOf (resolveInvoice d) = JSNum.num 0 ∧
    (∀ y : ℚ, hasTaxLine (totalsBlock (resolveInvoice d) y) = false) ∧
    totalOf (resolveInvoice d) = JSNum.num 0 ∧
    toFixed2 (JSNum.num 0) = "0.00" ∧
    (∃ s, Cmd.text s 20 25 none ∈ createPDFDocument lib d u c) ∧
    Cmd.text "Thank you for your business!" 105 (lib.pageHeight - 20)
      (some "center") ∈ createPDFDocument lib d u c := by
  have hitems : lineItemsOf (resolveInvoice d) = [] := by
    rcases h1 with h | h <;> simp [lineItemsOf, h]
  have hsvc : servicesOf (resolveInvoice d) = [] := by
    simp [servicesOf, hitems, classifyItems]
  have hmat : materialsOf (resolveInvoice d) = [] := by
    simp [materialsOf, hitems, classifyItems]
  have hsub : subtotalOf (resolveInvoice d) = JSNum.num 0 := by
    simp [subtotalOf, hsvc, hmat, sumAmounts, JSNum.add]
  have ht0 : invoiceTotalOf (resolveInvoice d) = JSNum.num 0 := by
    simp [invoiceTotalOf, toNumber, jsOr, h2, JSVal.truthy]
  have htax : taxOf (resolveInvoice d) = JSNum.num 0 := by
    simp [taxOf, hsub, ht0, JSNum.gt0, JSNum.mul]
  have htot : totalOf (resolveInvoice d) = JSNum.num 0 := by
    simp [totalOf, hsub, ht0, htax, JSNum.gt0, JSNum.add]
  refine ⟨?_, hsub, htax, ?_, htot, by decide, ?_, ?_⟩
  · rw [createPDF_split, hasTable_append, hasTable_append,
      hasTable_docBody_of_empty lib _ _ _ hsvc hmat, hasTable_totalsBlock,
      hasTable_footerCmds]
    rfl
  · intro y
    rw [hasTaxLine_totalsBlock, htax]
    decide
  · refine ⟨(jsOr (resolveBusiness d u).businessName (JSVal.str "Invoice")).interp, ?_⟩
    rw [createPDF_split]
    apply List.mem_append_left
    apply List.mem_append_left
    simp only [docBody]
    apply List.mem_append_left
    apply List.mem_append_left
    apply List.mem_append_left
    apply List.mem_append_left
    apply List.mem_append_left
    exact headerText_mem _
  · rw [createPDF_split]
    exact List.mem_append_right _ (footerThanks_mem lib _)

/-- C8 witness: the degenerate record evaluated concretely. -/
theorem empty_invoice_degrades_witness :
    hasTable (createPDFDocument libModel (mkData invEmpty) none none) = false ∧
    totalOf (resolveInvoice (mkData invEmpty)) = JSNum.num 0 :=
  ⟨(empty_invoice_degrades libModel (mkData invEmpty) none none
      (Or.inr (by decide)) (by decide)).1,
   (empty_invoice_degrades libModel (mkData invEmpty) none none
      (Or.inr (by decide)) (by decide)).2.2.2.2.1⟩

/-- C9: the composer unwraps its first argument (nested invoice record if
present, else the object itself), embedded business and client profiles
take precedence over the passed arguments with the empty object as final
fallback, the whole document depends on the inputs only through these
resolutions, and the saved filename is derived from the same unwrapped
invoice number with fallback Draft. -/
theorem input_unwrapping :
    (∀ (d : InvoiceData) (i : Invoice), d.invoice = some i →
        resolveInvoice d = i) ∧
    (∀ d : InvoiceData, d.invoice = none → resolveInvoice d = d.self) ∧
    (∀ (d : InvoiceData) (u : Option BusinessInfo) (b : BusinessInfo),
        d.user = some b → resolveBusiness d u = b) ∧
    (∀ (d : InvoiceData) (b : BusinessInfo), d.user = none →
        resolveBusiness d (some b) = b) ∧
    (∀ d : InvoiceData, d.user = none →
        resolveBusiness d none = emptyBusiness) ∧
    (∀ (d : InvoiceData) (c : Option ClientInfo) (ci : ClientInfo),
        d.client = some ci → resolveClient d c = ci) ∧
    (∀ (d : InvoiceData) (ci : ClientInfo), d.client = none →
        resolveClient d (some ci) = ci) ∧
    (∀ d : InvoiceData, d.client = none →
        resolveClient d none = emptyClient) ∧
    (∀ (lib : RenderLib) (d : InvoiceData) (u : Option BusinessInfo)
        (c : Option ClientInfo) (d' : InvoiceData) (u' : Option BusinessInfo)
        (c' : Option ClientInfo),
        resolveInvoice d = resolveInvoice d' →
        resolveBusiness d u = resolveBusiness d' u' →
        resolveClient d c = resolveClient d' c' →
        createPDFDocument lib d u c = createPDFDocument lib d' u' c') ∧
    (∀ (lib : RenderLib) (d : InvoiceData) (u : Option BusinessInfo)
        (c : Option ClientInfo),
        (generatePDF lib d u c).2 = "Invoice-" ++
          (jsOr (resolveInvoice d).invoiceNumber (JSVal.str "Draft")).interp
          ++ ".pdf") := by
  refine ⟨?_, ?_, ?_, ?_, ?_, ?_, ?_, ?_, ?_, ?_⟩
  · intro d i h
    simp [resolveInvoice, h]
  · intro d h
    simp [resolveInvoice, h]
  · intro d u b h
    simp [resolveBusiness, h]
  · intro d b h
    simp [resolveBusiness, h]
  · intro d h
    simp [resolveBusiness, h]
  · intro d c ci h
    simp [resolveClient, h]
  · intro d ci h
    simp [resolveClient, h]
  · intro d h
    simp [resolveClient, h]
  · intro lib d u c d' u' c' h1 h2 h3
    rw [createPDF_split, createPDF_split, h1, h2, h3]
  · intro lib d u c
    rfl

/-- C9 witness: a wrapper carrying a nested record resolves to that
record, and the filename falls back to Draft when the number is absent. -/
theorem input_unwrapping_witness :
    resolveInvoice (mkData invNeg) = invNeg ∧
    (generatePDF libModel (mkData invNeg) none none).2 = "Invoice-Draft.pdf" :=
  ⟨input_unwrapping.1 (mkData invNeg) invNeg rfl, by decide⟩

/-- C10: when the coerced authoritative total is strictly positive and
exactly equals the computed subtotal (itself positive), the tax is ten
percent of the subtotal, the tax line is rendered, the final total equals
the authoritative total, and subtotal plus tax differs from the printed
total. -/
theorem authoritative_total_equals_subtotal (lib : RenderLib)
    (d : InvoiceData) (u : Option BusinessInfo) (c : Option ClientInfo)
    (sq : ℚ)
    (hsub : subtotalOf (resolveInvoice d) = JSNum.num sq)
    (htot : invoiceTotalOf (resolveInvoice d) = JSNum.num sq)
    (hpos : 0 < sq) :
    taxOf (resolveInvoice d) = JSNum.num (sq * (1 / 10)) ∧
    (taxOf (resolveInvoice d)).gt0 = true ∧
    hasTaxLine (createPDFDocument lib d u c) = true ∧
    totalOf (resolveInvoice d) = JSNum.num sq ∧
    (subtotalOf (resolveInvoice d)).add (taxOf (resolveInvoice d)) ≠
      totalOf (resolveInvoice d) := by
  have htax : taxOf (resolveInvoice d) = JSNum.num (sq * (1 / 10)) := by
    simp [taxOf, hsub, htot, JSNum.strictNe, JSNum.mul]
  have hgt : (taxOf (resolveInvoice d)).gt0 = true := by
    rw [htax]
    simp only [JSNum.gt0, decide_eq_true_eq]
    exact mul_pos hpos (by norm_num)
  have htotal : totalOf (resolveInvoice d) = JSNum.num sq := by
    simp [totalOf, htot, JSNum.gt0, hpos]
  refine ⟨htax, hgt, ?_, htotal, ?_⟩
  · rw [createPDF_split, hasTaxLine_append, hasTaxLine_append,
      hasTaxLine_totalsBlock, hgt]
    simp
  · rw [hsub, htax, htotal]
    simp only [JSNum.add, ne_eq, JSNum.num.injEq]
    intro h
    nlinarith [hpos]

/-- C10 witness: authoritative total 100 with subtotal 100 renders a tax
line while printing total 100. -/
theorem authoritative_total_equals_subtotal_witness :
    hasTaxLine (createPDFDocument libModel (mkData inv100) none none) = true :=
  (authoritative_total_equals_subtotal libModel (mkData inv100) none none 100
    (by decide) (by decide) (by decide)).2.2.1

end AIly
